import Mathlib

/-!
Shallow embedding of `src/sqlite_conn.py`, class `SQLiteConnectionSingleton`.

The Python class keeps two class variables, `_instance` (the singleton
object) and `_conn` (declared as a class-level default for the connection).
Crucially, `connect()` and `close()` assign `self._conn = ...`, which in
Python creates/overwrites an *instance* attribute shadowing the class
attribute, while `reset()` assigns the *class* attributes.  The embedding
models this attribute-lookup semantics explicitly: reading `self._conn`
returns the instance attribute when present and otherwise falls back to the
class attribute; writing `self._conn` always writes the instance attribute.

Objects live in a heap and are identified by numeric ids, so that
"reference-identical" is expressible.  Connection resources are tracked in a
process-wide list with an open/closed flag, so that "at most one live
connection resource exists in the process" is expressible.
-/

/-- A row of the backing store (bind values are strings in the source's
`params: tuple[str, ...]`). -/
abbrev Row := List String

/-- Modelled from the spec: the SQL engine (Python's `sqlite3` module) is an
external collaborator, not part of `src/`.  Statements are abstracted to the
two shapes the spec's round-trip property uses: an INSERT of a row and a
SELECT of all rows. -/
inductive Stmt where
  | insertRow (r : Row)
  | selectAll
deriving Repr, DecidableEq

/-- Result handle returned by `execute` (models `sqlite3.Cursor`): it is
positioned over the result rows. -/
structure Cursor where
  rows : List Row
deriving Repr, DecidableEq

/-- A Python object of class `SQLiteConnectionSingleton`, identified by `id`.
`dbPath = none` models the `db_path` attribute not yet being set;
`initFlag` models `getattr(self, "_initialized", False)`;
`connAttr = none` models the *instance* attribute `_conn` being absent
(lookup then falls back to the class attribute), while `connAttr = some v`
models the instance attribute being set to `v` (a connection id or `None`). -/
structure Obj where
  id : Nat
  dbPath : Option String
  initFlag : Bool
  connAttr : Option (Option Nat)
deriving Repr, DecidableEq

/-- A connection resource created by `sqlite3.connect(path)`.  `pending`
models the connection's uncommitted unit of work (writes not yet flushed to
the backing store); `isOpen` is false once `.close()` has been called on it. -/
structure ConnRes where
  id : Nat
  path : String
  isOpen : Bool
  pending : List Row
deriving Repr, DecidableEq

/-- The process state: the heap of singleton-class objects, every connection
resource ever created, the two class variables of `SQLiteConnectionSingleton`,
fresh-id counters, and the backing store (committed rows per path). -/
structure PyState where
  heap : List Obj
  conns : List ConnRes
  classInstance : Option Nat
  classConn : Option Nat
  nextObj : Nat
  nextConn : Nat
  store : List (String × List Row)
deriving Repr, DecidableEq

/-- Errors the source raises: `ValueError` on a conflicting `db_path`
(the spec's `ConfigurationConflict`, carrying the bound and requested paths)
and `RuntimeError("Connection not established. Call connect() first.")`
(the spec's `NotConnected`).  `attributeError` models Python's
`AttributeError` on reading an attribute that was never set, and
`invalidHandle` is the embedding's error for operating on an object id not in
the heap (impossible for handles actually returned by `getInstance`). -/
inductive PyError where
  | configurationConflict (bound requested : String)
  | notConnected
  | attributeError
  | invalidHandle
deriving Repr, DecidableEq

/-- The fresh process: no objects, no connections, class variables at their
class-level defaults (`_instance = None`, `_conn = None`), empty store. -/
def initState : PyState :=
  { heap := [], conns := [], classInstance := none, classConn := none,
    nextObj := 0, nextConn := 0, store := [] }

/-- Look up a heap object by id. -/
def lookupObj (s : PyState) (h : Nat) : Option Obj :=
  s.heap.find? (fun o => o.id = h)

/-- Look up a connection resource by id. -/
def lookupConn (s : PyState) (c : Nat) : Option ConnRes :=
  s.conns.find? (fun cr => cr.id = c)

/-- Apply `f` to the heap object with id `h`. -/
def updateObj (s : PyState) (h : Nat) (f : Obj → Obj) : PyState :=
  { s with heap := s.heap.map (fun o => if o.id = h then f o else o) }

/-- Apply `f` to the connection resource with id `c`. -/
def updateConn (s : PyState) (c : Nat) (f : ConnRes → ConnRes) : PyState :=
  { s with conns := s.conns.map (fun cr => if cr.id = c then f cr else cr) }

/-- Python's read of `self._conn`: the instance attribute if present,
otherwise the class attribute `_conn`. -/
def selfConn (s : PyState) (h : Nat) : Option Nat :=
  match lookupObj s h with
  | none => none
  | some o =>
    match o.connAttr with
    | some v => v
    | none => s.classConn

namespace SQLiteConnectionSingleton

/-- `SQLiteConnectionSingleton(db_path)`: `__new__` returns the class-level
`_instance`, creating it first when it is `None`; then `__init__` runs on the
returned object: if `_initialized` is unset it binds `db_path` and sets
`_initialized = True`; otherwise it raises `ValueError` when the bound
`db_path` differs from the requested one, and is a logging no-op when they
agree.  Returns the handle (object id) and the post state. -/
def getInstance (p : String) (s : PyState) : Except PyError Nat × PyState :=
  -- __new__: `if cls._instance is None: cls._instance = super().__new__(cls)`
  let alloc : Nat × PyState :=
    match s.classInstance with
    | some i => (i, s)
    | none =>
      let i := s.nextObj
      let obj : Obj := { id := i, dbPath := none, initFlag := false, connAttr := none }
      (i, { s with heap := obj :: s.heap, nextObj := s.nextObj + 1,
                   classInstance := some i })
  let i := alloc.1
  let s1 := alloc.2
  -- __init__ runs on the returned instance on every instantiation
  match lookupObj s1 i with
  | none => (.error .invalidHandle, s1)
  | some obj =>
    if obj.initFlag = false then
      -- `self.db_path = db_path; self._initialized = True`
      (.ok i, updateObj s1 i (fun o => { o with dbPath := some p, initFlag := true }))
    else
      -- `if self.db_path != db_path: raise ValueError(...)`
      match obj.dbPath with
      | none => (.error .attributeError, s1)
      | some q =>
        if q = p then (.ok i, s1)
        else (.error (.configurationConflict q p), s1)

/-- `connect()`: `if self._conn is None: self._conn = sqlite3.connect(self.db_path)`.
The write `self._conn = ...` sets the *instance* attribute. -/
def connect (h : Nat) (s : PyState) : Except PyError Unit × PyState :=
  match lookupObj s h with
  | none => (.error .invalidHandle, s)
  | some obj =>
    match selfConn s h with
    | some _ => (.ok (), s)
    | none =>
      match obj.dbPath with
      | none => (.error .attributeError, s)
      | some p =>
        let c := s.nextConn
        let conn : ConnRes := { id := c, path := p, isOpen := true, pending := [] }
        let s1 := { s with conns := conn :: s.conns, nextConn := s.nextConn + 1 }
        (.ok (), updateObj s1 h (fun o => { o with connAttr := some (some c) }))

/-- `close()`: `if self._conn: self._conn.close(); self._conn = None`.
Releases the connection resource and writes `None` into the *instance*
attribute `_conn`. -/
def close (h : Nat) (s : PyState) : Except PyError Unit × PyState :=
  match lookupObj s h with
  | none => (.error .invalidHandle, s)
  | some _ =>
    match selfConn s h with
    | none => (.ok (), s)
    | some c =>
      let s1 := updateConn s c (fun cr => { cr with isOpen := false })
      (.ok (), updateObj s1 h (fun o => { o with connAttr := some none }))

/-- Modelled from the spec: `cursor.execute(query, params)` against the
external engine — an INSERT adds the row to the connection's uncommitted
unit of work and yields a cursor over no rows; a SELECT yields a cursor over
the committed rows for the connection's path plus the connection's own
uncommitted rows. -/
def engineExec (s : PyState) (cr : ConnRes) (stmt : Stmt) : Cursor × ConnRes :=
  match stmt with
  | .insertRow r => ({ rows := [] }, { cr with pending := cr.pending ++ [r] })
  | .selectAll =>
    match s.store.find? (fun e => e.1 = cr.path) with
    | some e => ({ rows := e.2 ++ cr.pending }, cr)
    | none => ({ rows := cr.pending }, cr)

/-- Committed rows the backing store holds for path `p`. -/
def storedRows (store : List (String × List Row)) (p : String) : List Row :=
  match store.find? (fun e => e.1 = p) with
  | some e => e.2
  | none => []

/-- Replace (or create) the committed rows for path `p`. -/
def setStored (store : List (String × List Row)) (p : String) (rs : List Row) :
    List (String × List Row) :=
  match store.find? (fun e => e.1 = p) with
  | some _ => store.map (fun e => if e.1 = p then (e.1, rs) else e)
  | none => (p, rs) :: store

/-- Modelled from the spec: `self._conn.commit()` — flush the connection's
uncommitted unit of work to the backing store synchronously. -/
def engineCommit (s : PyState) (cr : ConnRes) : PyState × ConnRes :=
  ({ s with store := setStored s.store cr.path (storedRows s.store cr.path ++ cr.pending) },
   { cr with pending := [] })

/-- `execute(query, params)`: `if self._conn is None: raise RuntimeError(...)`;
then `cursor = self._conn.cursor(); cursor.execute(query, params);
self._conn.commit(); return cursor`. -/
def execute (h : Nat) (stmt : Stmt) (s : PyState) : Except PyError Cursor × PyState :=
  match lookupObj s h with
  | none => (.error .invalidHandle, s)
  | some _ =>
    match selfConn s h with
    | none => (.error .notConnected, s)
    | some c =>
      match lookupConn s c with
      | none => (.error .invalidHandle, s)
      | some cr =>
        let ec := engineExec s cr stmt
        let s1 := updateConn s c (fun _ => ec.2)
        let sc := engineCommit s1 ec.2
        (.ok ec.1, updateConn sc.1 c (fun _ => sc.2))

/-- `reset()` (classmethod): `cls._instance = None; cls._conn = None`.
Writes the *class* attributes only; it neither closes any connection
resource nor touches any instance attribute. -/
def reset (s : PyState) : PyState :=
  { s with classInstance := none, classConn := none }

end SQLiteConnectionSingleton

/-- A client-visible operation on the singleton class, for trace-reachability
statements. -/
inductive Op where
  | getInstance (p : String)
  | connect (h : Nat)
  | execute (h : Nat) (stmt : Stmt)
  | close (h : Nat)
  | reset
deriving Repr, DecidableEq

/-- The state after one operation; a raised error propagates to the caller
and leaves the state where the raise left it. -/
def applyOp (s : PyState) : Op → PyState
  | .getInstance p => (SQLiteConnectionSingleton.getInstance p s).2
  | .connect h => (SQLiteConnectionSingleton.connect h s).2
  | .execute h stmt => (SQLiteConnectionSingleton.execute h stmt s).2
  | .close h => (SQLiteConnectionSingleton.close h s).2
  | .reset => SQLiteConnectionSingleton.reset s

/-- Run a sequence of operations from a state. -/
def runOps (s : PyState) : List Op → PyState
  | [] => s
  | op :: rest => runOps (applyOp s op) rest

/-- Number of live (open) connection resources in the process. -/
def openCount (s : PyState) : Nat :=
  (s.conns.filter (fun cr => cr.isOpen)).length

/-- `true` when the trace contains no `reset` operation. -/
def noResets (ops : List Op) : Bool :=
  ops.all (fun op => op != Op.reset)

/-- `true` when every heap object's id is below the fresh-object counter
(holds in every reachable state; rules out id collisions). -/
def objIdsFresh (s : PyState) : Bool :=
  s.heap.all (fun o => o.id < s.nextObj)

/-- The result of the last of `n + 1` successive `SQLiteConnectionSingleton(p)`
constructions (each call threads the state of the previous one; an error
stops the sequence). -/
def iterGetInstance (p : String) : Nat → PyState → Except PyError Nat × PyState
  | 0, s => SQLiteConnectionSingleton.getInstance p s
  | n + 1, s =>
    match SQLiteConnectionSingleton.getInstance p s with
    | (Except.ok _, s1) => iterGetInstance p n s1
    | (Except.error e, s1) => (Except.error e, s1)

/-- The result of the last of `n + 1` successive `connect()` calls. -/
def iterConnect (h : Nat) : Nat → PyState → Except PyError Unit × PyState
  | 0, s => SQLiteConnectionSingleton.connect h s
  | n + 1, s => iterConnect h n (SQLiteConnectionSingleton.connect h s).2

/-- The result of the last of `n + 1` successive `close()` calls. -/
def iterClose (h : Nat) : Nat → PyState → Except PyError Unit × PyState
  | 0, s => SQLiteConnectionSingleton.close h s
  | n + 1, s => iterClose h n (SQLiteConnectionSingleton.close h s).2

/-- The process state right after the very first `SQLiteConnectionSingleton(p)`
construction. -/
def stateAfterFirst (p : String) : PyState :=
  { heap := [{ id := 0, dbPath := some p, initFlag := true, connAttr := none }],
    conns := [], classInstance := some 0, classConn := none,
    nextObj := 1, nextConn := 0, store := [] }

/-- Invariant maintained by every reset-free trace from the fresh process:
the class attribute `_conn` is still `None`, the heap holds at most the one
singleton object, connection ids are fresh and pairwise distinct, at most one
connection resource is open, and every open connection is referenced by some
object's instance attribute `_conn`. -/
structure GoodState (s : PyState) : Prop where
  classConnNone : s.classConn = none
  heapEmptyOfNoInst : s.classInstance = none → s.heap = []
  heapLen : s.heap.length ≤ 1
  connIdsLt : ∀ cr ∈ s.conns, cr.id < s.nextConn
  connIdsDistinct : s.conns.Pairwise (fun a b => a.id ≠ b.id)
  openLe : openCount s ≤ 1
  openPointed : ∀ cr ∈ s.conns, cr.isOpen = true →
    ∃ o ∈ s.heap, o.connAttr = some (some cr.id)

/-! ### Basic lemmas about the heap and connection table -/

theorem find_map_comm {α : Type} (l : List α) (g : α → α) (p : α → Bool)
    (hp : ∀ x, p (g x) = p x) :
    (l.map g).find? p = (l.find? p).map g := by
  induction l with
  | nil => rfl
  | cons x xs ih =>
    by_cases hx : p x = true
    · rw [List.map_cons, List.find?_cons_of_pos _ (by rw [hp]; exact hx),
        List.find?_cons_of_pos _ hx]
      rfl
    · rw [List.map_cons, List.find?_cons_of_neg _ (by rw [hp]; simpa using hx),
        List.find?_cons_of_neg _ (by simpa using hx), ih]

theorem length_filter_map_eq {α : Type} (l : List α) (g : α → α) (p : α → Bool)
    (hp : ∀ x, p (g x) = p x) :
    ((l.map g).filter p).length = (l.filter p).length := by
  induction l with
  | nil => rfl
  | cons x xs ih =>
    simp only [List.map_cons, List.filter_cons, hp x]
    by_cases hx : p x = true
    · rw [if_pos hx, if_pos hx]
      simp [ih]
    · rw [if_neg hx, if_neg hx]
      exact ih

theorem length_filter_map_le {α : Type} (l : List α) (g : α → α) (p : α → Bool)
    (hp : ∀ x, p (g x) = true → p x = true) :
    ((l.map g).filter p).length ≤ (l.filter p).length := by
  induction l with
  | nil => exact Nat.le_refl _
  | cons x xs ih =>
    simp only [List.map_cons, List.filter_cons]
    by_cases hgx : p (g x) = true
    · rw [if_pos hgx, if_pos (hp x hgx)]
      simpa using ih
    · rw [if_neg hgx]
      by_cases hx : p x = true
      · rw [if_pos hx]
        exact Nat.le_succ_of_le ih
      · rw [if_neg hx]
        exact ih

@[simp] theorem updateObj_conns (s : PyState) (h : Nat) (f : Obj → Obj) :
    (updateObj s h f).conns = s.conns := rfl

@[simp] theorem updateObj_classConn (s : PyState) (h : Nat) (f : Obj → Obj) :
    (updateObj s h f).classConn = s.classConn := rfl

@[simp] theorem updateObj_classInstance (s : PyState) (h : Nat) (f : Obj → Obj) :
    (updateObj s h f).classInstance = s.classInstance := rfl

@[simp] theorem updateObj_store (s : PyState) (h : Nat) (f : Obj → Obj) :
    (updateObj s h f).store = s.store := rfl

@[simp] theorem updateConn_heap (s : PyState) (c : Nat) (f : ConnRes → ConnRes) :
    (updateConn s c f).heap = s.heap := rfl

@[simp] theorem updateConn_classConn (s : PyState) (c : Nat) (f : ConnRes → ConnRes) :
    (updateConn s c f).classConn = s.classConn := rfl

@[simp] theorem updateConn_classInstance (s : PyState) (c : Nat) (f : ConnRes → ConnRes) :
    (updateConn s c f).classInstance = s.classInstance := rfl

@[simp] theorem updateConn_store (s : PyState) (c : Nat) (f : ConnRes → ConnRes) :
    (updateConn s c f).store = s.store := rfl

theorem lookupObj_id (s : PyState) (h : Nat) (o : Obj) (ho : lookupObj s h = some o) :
    o.id = h := by
  have := List.find?_some ho
  simpa using this

theorem lookupObj_mem (s : PyState) (h : Nat) (o : Obj) (ho : lookupObj s h = some o) :
    o ∈ s.heap :=
  List.mem_of_find?_eq_some ho

theorem lookupConn_id (s : PyState) (c : Nat) (cr : ConnRes)
    (hc : lookupConn s c = some cr) : cr.id = c := by
  have := List.find?_some hc
  simpa using this

theorem lookupObj_updateObj_self (s : PyState) (h : Nat) (f : Obj → Obj)
    (hf : ∀ o, (f o).id = o.id) :
    lookupObj (updateObj s h f) h = (lookupObj s h).map (fun o => f o) := by
  unfold lookupObj updateObj
  rw [find_map_comm]
  · cases hfind : s.heap.find? (fun o => o.id = h) with
    | none => rfl
    | some o =>
      have hid : o.id = h := by simpa using List.find?_some hfind
      simp [hid]
  · intro x
    by_cases hx : x.id = h <;> simp [hx, hf]

theorem lookupObj_updateObj_other (s : PyState) (h h' : Nat) (f : Obj → Obj)
    (hf : ∀ o, (f o).id = o.id) (hne : h' ≠ h) :
    lookupObj (updateObj s h f) h' = lookupObj s h' := by
  unfold lookupObj updateObj
  rw [find_map_comm]
  · cases hfind : s.heap.find? (fun o => o.id = h') with
    | none => rfl
    | some o =>
      have hid : o.id = h' := by simpa using List.find?_some hfind
      simp [hid, hne]
  · intro x
    by_cases hx : x.id = h <;> simp [hx, hf]

theorem lookupConn_updateConn_self (s : PyState) (c : Nat) (f : ConnRes → ConnRes)
    (hf : ∀ cr, (f cr).id = cr.id) :
    lookupConn (updateConn s c f) c = (lookupConn s c).map (fun cr => f cr) := by
  unfold lookupConn updateConn
  rw [find_map_comm]
  · cases hfind : s.conns.find? (fun cr => cr.id = c) with
    | none => rfl
    | some cr =>
      have hid : cr.id = c := by simpa using List.find?_some hfind
      simp [hid]
  · intro x
    by_cases hx : x.id = c <;> simp [hx, hf]

theorem lookupConn_updateConn_other (s : PyState) (c c' : Nat) (f : ConnRes → ConnRes)
    (hf : ∀ cr, (f cr).id = cr.id) (hne : c' ≠ c) :
    lookupConn (updateConn s c f) c' = lookupConn s c' := by
  unfold lookupConn updateConn
  rw [find_map_comm]
  · cases hfind : s.conns.find? (fun cr => cr.id = c') with
    | none => rfl
    | some cr =>
      have hid : cr.id = c' := by simpa using List.find?_some hfind
      simp [hid, hne]
  · intro x
    by_cases hx : x.id = c <;> simp [hx, hf]

theorem selfConn_updateConn (s : PyState) (c : Nat) (f : ConnRes → ConnRes) (h : Nat) :
    selfConn (updateConn s c f) h = selfConn s h := rfl

theorem selfConn_updateObj_attr (s : PyState) (h : Nat) (v : Option Nat) (o : Obj)
    (ho : lookupObj s h = some o) :
    selfConn (updateObj s h (fun x => { x with connAttr := some v })) h = v := by
  have hl := lookupObj_updateObj_self s h
      (fun x => { x with connAttr := some v }) (fun _ => rfl)
  unfold selfConn
  rw [hl, ho]
  rfl

theorem selfConn_updateObj_other (s : PyState) (h h' : Nat) (f : Obj → Obj)
    (hf : ∀ o, (f o).id = o.id) (hne : h' ≠ h) :
    selfConn (updateObj s h f) h' = selfConn s h' := by
  unfold selfConn
  rw [lookupObj_updateObj_other s h h' f hf hne]
  rfl

theorem selfConn_updateObj_attr_other (s : PyState) (h h' : Nat) (v : Option Nat)
    (hne : h' ≠ h) :
    selfConn (updateObj s h (fun x => { x with connAttr := some v })) h' =
      selfConn s h' := by
  have hl := lookupObj_updateObj_other s h h'
      (fun x => { x with connAttr := some v }) (fun _ => rfl) hne
  unfold selfConn
  rw [hl]
  rfl

/-! ### Structure of the individual operations -/

theorem getInstance_initState (p : String) :
    SQLiteConnectionSingleton.getInstance p initState = (Except.ok 0, stateAfterFirst p) := by
  unfold SQLiteConnectionSingleton.getInstance initState stateAfterFirst
  simp [lookupObj, updateObj, List.find?]

theorem getInstance_stable (s : PyState) (i : Nat) (o : Obj) (p : String)
    (hi : s.classInstance = some i) (ho : lookupObj s i = some o)
    (hinit : o.initFlag = true) (hpath : o.dbPath = some p) :
    SQLiteConnectionSingleton.getInstance p s = (Except.ok i, s) := by
  unfold SQLiteConnectionSingleton.getInstance
  simp [hi, ho, hinit, hpath]

theorem iterGetInstance_fixed (p : String) (s : PyState) (i : Nat)
    (hs : SQLiteConnectionSingleton.getInstance p s = (Except.ok i, s)) :
    ∀ n, iterGetInstance p n s = (Except.ok i, s) := by
  intro n
  induction n with
  | zero => exact hs
  | succ k ih =>
    unfold iterGetInstance
    rw [hs]
    exact ih

/-- C1: for every sequence of `SQLiteConnectionSingleton(p)` constructions
with the same path `p`, every call returns the handle returned by the first
call (reference identity of object ids); the first call creates the instance,
binds it to `p`, and marks it initialized. -/
theorem c1_getInstance_singleton (p : String) (n : Nat) :
    SQLiteConnectionSingleton.getInstance p initState = (Except.ok 0, stateAfterFirst p) ∧
    (stateAfterFirst p).classInstance = some 0 ∧
    lookupObj (stateAfterFirst p) 0 =
      some { id := 0, dbPath := some p, initFlag := true, connAttr := none } ∧
    iterGetInstance p n initState = (Except.ok 0, stateAfterFirst p) := by
  have hstable : SQLiteConnectionSingleton.getInstance p (stateAfterFirst p) =
      (Except.ok 0, stateAfterFirst p) :=
    getInstance_stable (stateAfterFirst p) 0
      { id := 0, dbPath := some p, initFlag := true, connAttr := none } p rfl rfl rfl rfl
  refine ⟨getInstance_initState p, rfl, rfl, ?_⟩
  cases n with
  | zero => exact getInstance_initState p
  | succ k =>
    unfold iterGetInstance
    rw [getInstance_initState p]
    exact iterGetInstance_fixed p (stateAfterFirst p) 0 hstable k

/-- C2: when the live singleton is already bound to `p1`, a construction
requesting `p2 ≠ p1` raises the configuration-conflict error instead of
returning a handle. -/
theorem c2_conflict (s : PyState) (i : Nat) (o : Obj) (p1 p2 : String)
    (hi : s.classInstance = some i) (ho : lookupObj s i = some o)
    (hinit : o.initFlag = true) (hpath : o.dbPath = some p1) (hne : p1 ≠ p2) :
    (SQLiteConnectionSingleton.getInstance p2 s).1 =
      Except.error (PyError.configurationConflict p1 p2) := by
  unfold SQLiteConnectionSingleton.getInstance
  simp [hi, ho, hinit, hpath, hne]

/-- C2 witness: bind the singleton to `"a"`, then request `"b"`. -/
theorem c2_conflict_witness :
    (SQLiteConnectionSingleton.getInstance "b" (stateAfterFirst "a")).1 =
      Except.error (PyError.configurationConflict "a" "b") :=
  c2_conflict (stateAfterFirst "a") 0
    { id := 0, dbPath := some "a", initFlag := true, connAttr := none }
    "a" "b" rfl rfl rfl rfl (by decide)

/-- C9: a construction that raises the configuration-conflict error leaves
the entire process state (singleton identity, bound path, initialized flag,
connections) exactly as it was. -/
theorem c9_conflict_state_unchanged (s : PyState) (p2 b r : String)
    (h : (SQLiteConnectionSingleton.getInstance p2 s).1 =
      Except.error (PyError.configurationConflict b r)) :
    (SQLiteConnectionSingleton.getInstance p2 s).2 = s := by
  unfold SQLiteConnectionSingleton.getInstance at h ⊢
  cases hci : s.classInstance with
  | none =>
    exfalso
    simp only [hci] at h
    simp [lookupObj, List.find?] at h
  | some i =>
    simp only [hci] at h ⊢
    cases hl : lookupObj s i with
    | none => simp [hl]
    | some o =>
      simp only [hl] at h ⊢
      by_cases hinit : o.initFlag = false
      · simp [hinit] at h
      · simp only [hinit] at h ⊢
        cases hp : o.dbPath with
        | none => simp [hp]
        | some q =>
          simp only [hp] at h ⊢
          by_cases hq : q = p2
          · simp [hq] at h
          · simp [hq]

/-- C9 witness: the conflicting call `getInstance "b"` on the singleton bound
to `"a"` leaves the state unchanged. -/
theorem c9_conflict_state_unchanged_witness :
    (SQLiteConnectionSingleton.getInstance "b" (stateAfterFirst "a")).2 =
      stateAfterFirst "a" :=
  c9_conflict_state_unchanged (stateAfterFirst "a") "b" "a" "b" rfl

/-! ### Structure of `connect`, `close`, `execute` -/

theorem execute_fst_notConnected_iff (s : PyState) (h : Nat) (o : Obj) (stmt : Stmt)
    (ho : lookupObj s h = some o) :
    (SQLiteConnectionSingleton.execute h stmt s).1 = Except.error PyError.notConnected ↔
      selfConn s h = none := by
  unfold SQLiteConnectionSingleton.execute
  cases hsc : selfConn s h with
  | none => simp [ho, hsc]
  | some c =>
    cases hc : lookupConn s c with
    | none => simp [ho, hsc, hc]
    | some cr => simp [ho, hsc, hc]

theorem connect_of_selfConn_some (s : PyState) (h c : Nat) (o : Obj)
    (ho : lookupObj s h = some o) (hsc : selfConn s h = some c) :
    SQLiteConnectionSingleton.connect h s = (Except.ok (), s) := by
  unfold SQLiteConnectionSingleton.connect
  simp [ho, hsc]

theorem connect_of_selfConn_none (s : PyState) (h : Nat) (o : Obj) (p : String)
    (ho : lookupObj s h = some o) (hp : o.dbPath = some p)
    (hsc : selfConn s h = none) :
    SQLiteConnectionSingleton.connect h s =
      (Except.ok (),
        updateObj
          { s with conns := { id := s.nextConn, path := p, isOpen := true, pending := [] } :: s.conns,
                   nextConn := s.nextConn + 1 }
          h (fun x => { x with connAttr := some (some s.nextConn) })) := by
  unfold SQLiteConnectionSingleton.connect
  simp [ho, hsc, hp]

theorem connect_fst (s : PyState) (h : Nat) (o : Obj) (p : String)
    (ho : lookupObj s h = some o) (hp : o.dbPath = some p) :
    (SQLiteConnectionSingleton.connect h s).1 = Except.ok () := by
  cases hsc : selfConn s h with
  | some c => rw [connect_of_selfConn_some s h c o ho hsc]
  | none => rw [connect_of_selfConn_none s h o p ho hp hsc]

theorem lookupObj_connect (s : PyState) (h : Nat) (o : Obj) (p : String)
    (ho : lookupObj s h = some o) (hp : o.dbPath = some p) :
    ∃ o2, lookupObj (SQLiteConnectionSingleton.connect h s).2 h = some o2 := by
  cases hsc : selfConn s h with
  | some c =>
    rw [connect_of_selfConn_some s h c o ho hsc]
    exact ⟨o, ho⟩
  | none =>
    rw [connect_of_selfConn_none s h o p ho hp hsc]
    have hl := lookupObj_updateObj_self
      { s with conns := { id := s.nextConn, path := p, isOpen := true, pending := [] } :: s.conns,
               nextConn := s.nextConn + 1 }
      h (fun x => { x with connAttr := some (some s.nextConn) }) (fun _ => rfl)
    refine ⟨{ o with connAttr := some (some s.nextConn) }, ?_⟩
    rw [hl]
    have : lookupObj
        { s with conns := { id := s.nextConn, path := p, isOpen := true, pending := [] } :: s.conns,
                 nextConn := s.nextConn + 1 }
        h = some o := ho
    rw [this]
    rfl

theorem selfConn_connect (s : PyState) (h : Nat) (o : Obj) (p : String)
    (ho : lookupObj s h = some o) (hp : o.dbPath = some p) :
    ∃ c, selfConn (SQLiteConnectionSingleton.connect h s).2 h = some c := by
  cases hsc : selfConn s h with
  | some c =>
    rw [connect_of_selfConn_some s h c o ho hsc]
    exact ⟨c, hsc⟩
  | none =>
    rw [connect_of_selfConn_none s h o p ho hp hsc]
    refine ⟨s.nextConn, ?_⟩
    exact selfConn_updateObj_attr _ h (some s.nextConn) o ho

theorem connect_connect (s : PyState) (h : Nat) (o : Obj) (p : String)
    (ho : lookupObj s h = some o) (hp : o.dbPath = some p) :
    SQLiteConnectionSingleton.connect h (SQLiteConnectionSingleton.connect h s).2 =
      (Except.ok (), (SQLiteConnectionSingleton.connect h s).2) := by
  obtain ⟨o2, ho2⟩ := lookupObj_connect s h o p ho hp
  obtain ⟨c, hc⟩ := selfConn_connect s h o p ho hp
  exact connect_of_selfConn_some _ h c o2 ho2 hc

theorem iterConnect_fixed (h : Nat) (s : PyState)
    (hs : SQLiteConnectionSingleton.connect h s = (Except.ok (), s)) :
    ∀ n, iterConnect h n s = (Except.ok (), s) := by
  intro n
  induction n with
  | zero => exact hs
  | succ k ih =>
    unfold iterConnect
    rw [hs]
    exact ih

theorem iterConnect_ok (s : PyState) (h : Nat) (o : Obj) (p : String)
    (ho : lookupObj s h = some o) (hp : o.dbPath = some p) :
    ∀ n, iterConnect h n s = (Except.ok (), (SQLiteConnectionSingleton.connect h s).2) := by
  intro n
  cases n with
  | zero =>
    have hfst := connect_fst s h o p ho hp
    show SQLiteConnectionSingleton.connect h s = _
    rw [← hfst]
  | succ k =>
    unfold iterConnect
    have hfix : SQLiteConnectionSingleton.connect h (SQLiteConnectionSingleton.connect h s).2 =
        (Except.ok (), (SQLiteConnectionSingleton.connect h s).2) :=
      connect_connect s h o p ho hp
    exact iterConnect_fixed h _ hfix k

theorem close_of_selfConn_none (s : PyState) (h : Nat) (o : Obj)
    (ho : lookupObj s h = some o) (hsc : selfConn s h = none) :
    SQLiteConnectionSingleton.close h s = (Except.ok (), s) := by
  unfold SQLiteConnectionSingleton.close
  simp [ho, hsc]

theorem close_of_selfConn_some (s : PyState) (h c : Nat) (o : Obj)
    (ho : lookupObj s h = some o) (hsc : selfConn s h = some c) :
    SQLiteConnectionSingleton.close h s =
      (Except.ok (),
        updateObj (updateConn s c (fun cr => { cr with isOpen := false }))
          h (fun x => { x with connAttr := some none })) := by
  unfold SQLiteConnectionSingleton.close
  simp [ho, hsc]

theorem close_fst (s : PyState) (h : Nat) (o : Obj) (ho : lookupObj s h = some o) :
    (SQLiteConnectionSingleton.close h s).1 = Except.ok () := by
  cases hsc : selfConn s h with
  | none => rw [close_of_selfConn_none s h o ho hsc]
  | some c => rw [close_of_selfConn_some s h c o ho hsc]

theorem lookupObj_close (s : PyState) (h : Nat) (o : Obj) (ho : lookupObj s h = some o) :
    ∃ o2, lookupObj (SQLiteConnectionSingleton.close h s).2 h = some o2 := by
  cases hsc : selfConn s h with
  | none =>
    rw [close_of_selfConn_none s h o ho hsc]
    exact ⟨o, ho⟩
  | some c =>
    rw [close_of_selfConn_some s h c o ho hsc]
    have hl := lookupObj_updateObj_self (updateConn s c (fun cr => { cr with isOpen := false }))
      h (fun x => { x with connAttr := some none }) (fun _ => rfl)
    refine ⟨{ o with connAttr := some none }, ?_⟩
    rw [hl]
    have : lookupObj (updateConn s c (fun cr => { cr with isOpen := false })) h = some o := ho
    rw [this]
    rfl

theorem close_selfConn (s : PyState) (h : Nat) (o : Obj) (ho : lookupObj s h = some o) :
    selfConn (SQLiteConnectionSingleton.close h s).2 h = none := by
  cases hsc : selfConn s h with
  | none =>
    rw [close_of_selfConn_none s h o ho hsc]
    exact hsc
  | some c =>
    rw [close_of_selfConn_some s h c o ho hsc]
    exact selfConn_updateObj_attr _ h none o ho

theorem close_close (s : PyState) (h : Nat) (o : Obj) (ho : lookupObj s h = some o) :
    SQLiteConnectionSingleton.close h (SQLiteConnectionSingleton.close h s).2 =
      (Except.ok (), (SQLiteConnectionSingleton.close h s).2) := by
  obtain ⟨o2, ho2⟩ := lookupObj_close s h o ho
  exact close_of_selfConn_none _ h o2 ho2 (close_selfConn s h o ho)

theorem iterClose_fixed (h : Nat) (s : PyState)
    (hs : SQLiteConnectionSingleton.close h s = (Except.ok (), s)) :
    ∀ n, iterClose h n s = (Except.ok (), s) := by
  intro n
  induction n with
  | zero => exact hs
  | succ k ih =>
    unfold iterClose
    rw [hs]
    exact ih

theorem iterClose_ok (s : PyState) (h : Nat) (o : Obj) (ho : lookupObj s h = some o) :
    ∀ n, iterClose h n s = (Except.ok (), (SQLiteConnectionSingleton.close h s).2) := by
  intro n
  cases n with
  | zero =>
    have hfst := close_fst s h o ho
    show SQLiteConnectionSingleton.close h s = _
    rw [← hfst]
  | succ k =>
    unfold iterClose
    exact iterClose_fixed h _ (close_close s h o ho) k

/-- C3: `execute` raises the not-connected error exactly when no live
connection is attached at the time of the call: before any `connect()` the
read of `self._conn` yields `None` and `execute` fails; after a `connect()`
it does not raise not-connected; after a `close()` it raises not-connected
again. -/
theorem c3_execute_requires_connection (s : PyState) (h : Nat) (o : Obj) (p : String)
    (ho : lookupObj s h = some o) (hp : o.dbPath = some p) :
    (∀ stmt, (SQLiteConnectionSingleton.execute h stmt s).1 =
        Except.error PyError.notConnected ↔ selfConn s h = none) ∧
    (∀ stmt, (SQLiteConnectionSingleton.execute h stmt
        (SQLiteConnectionSingleton.connect h s).2).1 ≠
        Except.error PyError.notConnected) ∧
    (∀ stmt, (SQLiteConnectionSingleton.execute h stmt
        (SQLiteConnectionSingleton.close h s).2).1 =
        Except.error PyError.notConnected) := by
  refine ⟨fun stmt => execute_fst_notConnected_iff s h o stmt ho, ?_, ?_⟩
  · intro stmt heq
    obtain ⟨o2, ho2⟩ := lookupObj_connect s h o p ho hp
    obtain ⟨c, hc⟩ := selfConn_connect s h o p ho hp
    rw [execute_fst_notConnected_iff _ h o2 stmt ho2] at heq
    rw [heq] at hc
    exact Option.noConfusion hc
  · intro stmt
    obtain ⟨o2, ho2⟩ := lookupObj_close s h o ho
    rw [execute_fst_notConnected_iff _ h o2 stmt ho2]
    exact close_selfConn s h o ho

/-- C3 witness: on the freshly constructed singleton (never connected),
`execute` fails not-connected; after `connect` it does not; after `close` it
does again. -/
theorem c3_execute_requires_connection_witness :
    (∀ stmt, (SQLiteConnectionSingleton.execute 0 stmt (stateAfterFirst "a")).1 =
        Except.error PyError.notConnected ↔ selfConn (stateAfterFirst "a") 0 = none) ∧
    (∀ stmt, (SQLiteConnectionSingleton.execute 0 stmt
        (SQLiteConnectionSingleton.connect 0 (stateAfterFirst "a")).2).1 ≠
        Except.error PyError.notConnected) ∧
    (∀ stmt, (SQLiteConnectionSingleton.execute 0 stmt
        (SQLiteConnectionSingleton.close 0 (stateAfterFirst "a")).2).1 =
        Except.error PyError.notConnected) :=
  c3_execute_requires_connection (stateAfterFirst "a") 0
    { id := 0, dbPath := some "a", initFlag := true, connAttr := none } "a" rfl rfl

/-- C4: `connect()` never fails on an initialized handle, repeated calls are
no-ops leaving the state of a single `connect()`, a call from a
no-live-connection state opens a fresh open connection against the bound
path, and a call with a live connection leaves the state untouched. -/
theorem c4_connect_idempotent (s : PyState) (h : Nat) (o : Obj) (p : String)
    (ho : lookupObj s h = some o) (hp : o.dbPath = some p) :
    (SQLiteConnectionSingleton.connect h s).1 = Except.ok () ∧
    SQLiteConnectionSingleton.connect h (SQLiteConnectionSingleton.connect h s).2 =
      (Except.ok (), (SQLiteConnectionSingleton.connect h s).2) ∧
    (∀ n, iterConnect h n s = (Except.ok (), (SQLiteConnectionSingleton.connect h s).2)) ∧
    (selfConn s h = none →
      selfConn (SQLiteConnectionSingleton.connect h s).2 h = some s.nextConn ∧
      lookupConn (SQLiteConnectionSingleton.connect h s).2 s.nextConn =
        some { id := s.nextConn, path := p, isOpen := true, pending := [] }) ∧
    (∀ c, selfConn s h = some c → (SQLiteConnectionSingleton.connect h s).2 = s) := by
  refine ⟨connect_fst s h o p ho hp, connect_connect s h o p ho hp,
    iterConnect_ok s h o p ho hp, ?_, ?_⟩
  · intro hsc
    rw [connect_of_selfConn_none s h o p ho hp hsc]
    constructor
    · exact selfConn_updateObj_attr _ h (some s.nextConn) o ho
    · show lookupConn
        { s with conns := { id := s.nextConn, path := p, isOpen := true, pending := [] } :: s.conns,
                 nextConn := s.nextConn + 1 } s.nextConn = _
      unfold lookupConn
      simp [List.find?]
  · intro c hsc
    rw [connect_of_selfConn_some s h c o ho hsc]

/-- C4 witness: connecting the fresh singleton twice. -/
theorem c4_connect_idempotent_witness :
    (SQLiteConnectionSingleton.connect 0 (stateAfterFirst "a")).1 = Except.ok () ∧
    SQLiteConnectionSingleton.connect 0
        (SQLiteConnectionSingleton.connect 0 (stateAfterFirst "a")).2 =
      (Except.ok (), (SQLiteConnectionSingleton.connect 0 (stateAfterFirst "a")).2) ∧
    (∀ n, iterConnect 0 n (stateAfterFirst "a") =
      (Except.ok (), (SQLiteConnectionSingleton.connect 0 (stateAfterFirst "a")).2)) ∧
    (selfConn (stateAfterFirst "a") 0 = none →
      selfConn (SQLiteConnectionSingleton.connect 0 (stateAfterFirst "a")).2 0 =
        some (stateAfterFirst "a").nextConn ∧
      lookupConn (SQLiteConnectionSingleton.connect 0 (stateAfterFirst "a")).2
          (stateAfterFirst "a").nextConn =
        some { id := (stateAfterFirst "a").nextConn, path := "a", isOpen := true, pending := [] }) ∧
    (∀ c, selfConn (stateAfterFirst "a") 0 = some c →
      (SQLiteConnectionSingleton.connect 0 (stateAfterFirst "a")).2 = stateAfterFirst "a") :=
  c4_connect_idempotent (stateAfterFirst "a") 0
    { id := 0, dbPath := some "a", initFlag := true, connAttr := none } "a" rfl rfl

/-- C6: `close()` never fails: with a live connection it marks the resource
closed and clears the stored reference; with none it leaves the state
untouched; any number of repeated calls returns success and the state of a
single `close()`. -/
theorem c6_close_idempotent (s : PyState) (h : Nat) (o : Obj)
    (ho : lookupObj s h = some o) :
    (SQLiteConnectionSingleton.close h s).1 = Except.ok () ∧
    (selfConn s h = none → (SQLiteConnectionSingleton.close h s).2 = s) ∧
    (∀ c cr, selfConn s h = some c → lookupConn s c = some cr →
      selfConn (SQLiteConnectionSingleton.close h s).2 h = none ∧
      lookupConn (SQLiteConnectionSingleton.close h s).2 c = some { cr with isOpen := false }) ∧
    (∀ n, iterClose h n s = (Except.ok (), (SQLiteConnectionSingleton.close h s).2)) := by
  refine ⟨close_fst s h o ho, ?_, ?_, iterClose_ok s h o ho⟩
  · intro hsc
    rw [close_of_selfConn_none s h o ho hsc]
  · intro c cr hsc hcr
    refine ⟨close_selfConn s h o ho, ?_⟩
    rw [close_of_selfConn_some s h c o ho hsc]
    show lookupConn
      (updateObj (updateConn s c (fun x => { x with isOpen := false }))
        h (fun x => { x with connAttr := some none })) c = _
    have h1 : lookupConn
        (updateObj (updateConn s c (fun x => { x with isOpen := false }))
          h (fun x => { x with connAttr := some none })) c =
        lookupConn (updateConn s c (fun x => { x with isOpen := false })) c := rfl
    rw [h1, lookupConn_updateConn_self s c (fun x => { x with isOpen := false }) (fun _ => rfl),
      hcr]
    rfl

/-- C6 witness: closing the connected singleton, then closing again. -/
theorem c6_close_idempotent_witness :
    ((SQLiteConnectionSingleton.close 0
        (SQLiteConnectionSingleton.connect 0 (stateAfterFirst "a")).2).1 = Except.ok () ∧
      (selfConn (SQLiteConnectionSingleton.connect 0 (stateAfterFirst "a")).2 0 = none →
        (SQLiteConnectionSingleton.close 0
          (SQLiteConnectionSingleton.connect 0 (stateAfterFirst "a")).2).2 =
          (SQLiteConnectionSingleton.connect 0 (stateAfterFirst "a")).2) ∧
      (∀ c cr, selfConn (SQLiteConnectionSingleton.connect 0 (stateAfterFirst "a")).2 0 = some c →
        lookupConn (SQLiteConnectionSingleton.connect 0 (stateAfterFirst "a")).2 c = some cr →
        selfConn (SQLiteConnectionSingleton.close 0
          (SQLiteConnectionSingleton.connect 0 (stateAfterFirst "a")).2).2 0 = none ∧
        lookupConn (SQLiteConnectionSingleton.close 0
            (SQLiteConnectionSingleton.connect 0 (stateAfterFirst "a")).2).2 c =
          some { cr with isOpen := false }) ∧
      (∀ n, iterClose 0 n (SQLiteConnectionSingleton.connect 0 (stateAfterFirst "a")).2 =
        (Except.ok (), (SQLiteConnectionSingleton.close 0
          (SQLiteConnectionSingleton.connect 0 (stateAfterFirst "a")).2).2))) :=
  c6_close_idempotent (SQLiteConnectionSingleton.connect 0 (stateAfterFirst "a")).2 0
    { id := 0, dbPath := some "a", initFlag := true, connAttr := some (some 0) } rfl

/-! ### `reset` and reconstruction -/

theorem getInstance_of_no_inst (t : PyState) (p : String) (ht : t.classInstance = none) :
    SQLiteConnectionSingleton.getInstance p t =
      (Except.ok t.nextObj,
        updateObj
          { t with heap := { id := t.nextObj, dbPath := none, initFlag := false, connAttr := none } :: t.heap,
                   nextObj := t.nextObj + 1, classInstance := some t.nextObj }
          t.nextObj (fun o => { o with dbPath := some p, initFlag := true })) := by
  unfold SQLiteConnectionSingleton.getInstance
  simp only [ht]
  simp [lookupObj, List.find?]

theorem lookupObj_fresh_cons (t : PyState) (p2 : String) :
    lookupObj
      (updateObj
        { t with heap := { id := t.nextObj, dbPath := none, initFlag := false, connAttr := none } :: t.heap,
                 nextObj := t.nextObj + 1, classInstance := some t.nextObj }
        t.nextObj (fun o => { o with dbPath := some p2, initFlag := true }))
      t.nextObj =
      some { id := t.nextObj, dbPath := some p2, initFlag := true, connAttr := none } := by
  have hinner : lookupObj
      { t with heap := { id := t.nextObj, dbPath := none, initFlag := false, connAttr := none } :: t.heap,
               nextObj := t.nextObj + 1, classInstance := some t.nextObj }
      t.nextObj =
      some { id := t.nextObj, dbPath := none, initFlag := false, connAttr := none } := by
    unfold lookupObj
    rw [List.find?_cons_of_pos _ (by simp)]
  rw [lookupObj_updateObj_self _ t.nextObj
    (fun o => { o with dbPath := some p2, initFlag := true }) (fun _ => rfl), hinner]
  rfl

theorem getInstance_no_inst_props (t : PyState) (p : String) (ht : t.classInstance = none) :
    (SQLiteConnectionSingleton.getInstance p t).1 = Except.ok t.nextObj ∧
    (SQLiteConnectionSingleton.getInstance p t).2.classInstance = some t.nextObj ∧
    lookupObj (SQLiteConnectionSingleton.getInstance p t).2 t.nextObj =
      some { id := t.nextObj, dbPath := some p, initFlag := true, connAttr := none } ∧
    selfConn (SQLiteConnectionSingleton.getInstance p t).2 t.nextObj = t.classConn := by
  rw [getInstance_of_no_inst t p ht]
  refine ⟨rfl, rfl, lookupObj_fresh_cons t p, ?_⟩
  unfold selfConn
  rw [lookupObj_fresh_cons t p]
  rfl

/-- C5: after `reset()`, construction with any path `p2` succeeds and yields a
brand-new singleton object — an id distinct from every pre-reset object —
bound to `p2`, marked initialized, with no live connection attached. -/
theorem c5_reset_allows_rebind (s : PyState) (p2 : String)
    (hwf : objIdsFresh s = true) :
    (SQLiteConnectionSingleton.getInstance p2 (SQLiteConnectionSingleton.reset s)).1 =
      Except.ok s.nextObj ∧
    (SQLiteConnectionSingleton.getInstance p2 (SQLiteConnectionSingleton.reset s)).2.classInstance =
      some s.nextObj ∧
    lookupObj (SQLiteConnectionSingleton.getInstance p2 (SQLiteConnectionSingleton.reset s)).2
        s.nextObj =
      some { id := s.nextObj, dbPath := some p2, initFlag := true, connAttr := none } ∧
    selfConn (SQLiteConnectionSingleton.getInstance p2 (SQLiteConnectionSingleton.reset s)).2
        s.nextObj = none ∧
    ∀ o ∈ s.heap, o.id ≠ s.nextObj := by
  obtain ⟨h1, h2, h3, h4⟩ :=
    getInstance_no_inst_props (SQLiteConnectionSingleton.reset s) p2 rfl
  refine ⟨h1, h2, h3, h4, ?_⟩
  intro o ho hcontra
  have := List.all_eq_true.mp hwf o ho
  simp only [decide_eq_true_eq] at this
  omega

/-- C5 witness: reset the singleton bound to `"a"`, then rebind to `"b"`. -/
theorem c5_reset_allows_rebind_witness :
    (SQLiteConnectionSingleton.getInstance "b"
        (SQLiteConnectionSingleton.reset (stateAfterFirst "a"))).1 =
      Except.ok (stateAfterFirst "a").nextObj ∧
    (SQLiteConnectionSingleton.getInstance "b"
        (SQLiteConnectionSingleton.reset (stateAfterFirst "a"))).2.classInstance =
      some (stateAfterFirst "a").nextObj ∧
    lookupObj (SQLiteConnectionSingleton.getInstance "b"
        (SQLiteConnectionSingleton.reset (stateAfterFirst "a"))).2
        (stateAfterFirst "a").nextObj =
      some { id := (stateAfterFirst "a").nextObj, dbPath := some "b", initFlag := true,
             connAttr := none } ∧
    selfConn (SQLiteConnectionSingleton.getInstance "b"
        (SQLiteConnectionSingleton.reset (stateAfterFirst "a"))).2
        (stateAfterFirst "a").nextObj = none ∧
    ∀ o ∈ (stateAfterFirst "a").heap, o.id ≠ (stateAfterFirst "a").nextObj :=
  c5_reset_allows_rebind (stateAfterFirst "a") "b" (by decide)

/-! ### The backing store and `execute` round-trip -/

theorem find?_setStored_self (st : List (String × List Row)) (p : String) (rs : List Row) :
    (SQLiteConnectionSingleton.setStored st p rs).find? (fun e => e.1 = p) = some (p, rs) := by
  unfold SQLiteConnectionSingleton.setStored
  cases hf : st.find? (fun e => e.1 = p) with
  | none =>
    rw [List.find?_cons_of_pos _ (by simp)]
  | some e =>
    rw [find_map_comm]
    · rw [hf]
      have he : e.1 = p := by simpa using List.find?_some hf
      simp [he]
    · intro x
      by_cases hx : x.1 = p <;> simp [hx]

theorem storedRows_setStored_self (st : List (String × List Row)) (p : String) (rs : List Row) :
    SQLiteConnectionSingleton.storedRows (SQLiteConnectionSingleton.setStored st p rs) p = rs := by
  unfold SQLiteConnectionSingleton.storedRows
  rw [find?_setStored_self]

theorem lookupConn_updateConn_const (s : PyState) (c : Nat) (cr0 cr2 : ConnRes)
    (hc : lookupConn s c = some cr0) (hid : cr2.id = c) :
    lookupConn (updateConn s c (fun _ => cr2)) c = some cr2 := by
  unfold lookupConn updateConn
  rw [find_map_comm]
  · rw [show s.conns.find? (fun cr => cr.id = c) = some cr0 from hc]
    have h0 : cr0.id = c := lookupConn_id s c cr0 hc
    simp [h0]
  · intro x
    by_cases hx : x.id = c <;> simp [hx, hid]

theorem execute_insert_eq (s : PyState) (h c : Nat) (o : Obj) (cr : ConnRes) (r : Row)
    (ho : lookupObj s h = some o) (hsc : selfConn s h = some c)
    (hcr : lookupConn s c = some cr) :
    SQLiteConnectionSingleton.execute h (Stmt.insertRow r) s =
      (Except.ok { rows := [] },
        updateConn
          { (updateConn s c (fun _ => { cr with pending := cr.pending ++ [r] })) with
              store := SQLiteConnectionSingleton.setStored s.store cr.path
                (SQLiteConnectionSingleton.storedRows s.store cr.path ++ (cr.pending ++ [r])) }
          c (fun _ => { cr with pending := [] })) := by
  unfold SQLiteConnectionSingleton.execute SQLiteConnectionSingleton.engineExec
    SQLiteConnectionSingleton.engineCommit
  simp [ho, hsc, hcr]

theorem execute_select_rows (s : PyState) (h c : Nat) (o : Obj) (cr : ConnRes)
    (e : String × List Row)
    (ho : lookupObj s h = some o) (hsc : selfConn s h = some c)
    (hcr : lookupConn s c = some cr)
    (hst : s.store.find? (fun x => x.1 = cr.path) = some e) :
    (SQLiteConnectionSingleton.execute h Stmt.selectAll s).1 =
      Except.ok { rows := e.2 ++ cr.pending } := by
  unfold SQLiteConnectionSingleton.execute SQLiteConnectionSingleton.engineExec
  simp [ho, hsc, hcr, hst]

theorem execute_roundtrip_aux (t : PyState) (h c : Nat) (o : Obj) (cr : ConnRes) (r : Row)
    (ho : lookupObj t h = some o) (hsc : selfConn t h = some c)
    (hcr : lookupConn t c = some cr) :
    (SQLiteConnectionSingleton.execute h (Stmt.insertRow r) t).1 = Except.ok { rows := [] } ∧
    r ∈ SQLiteConnectionSingleton.storedRows
      (SQLiteConnectionSingleton.execute h (Stmt.insertRow r) t).2.store cr.path ∧
    ∃ rows0,
      (SQLiteConnectionSingleton.execute h Stmt.selectAll
        (SQLiteConnectionSingleton.execute h (Stmt.insertRow r) t).2).1 =
        Except.ok { rows := rows0 } ∧ r ∈ rows0 := by
  have hidcr : cr.id = c := lookupConn_id t c cr hcr
  rw [execute_insert_eq t h c o cr r ho hsc hcr]
  refine ⟨rfl, ?_, ?_⟩
  · show r ∈ SQLiteConnectionSingleton.storedRows
      (SQLiteConnectionSingleton.setStored t.store cr.path
        (SQLiteConnectionSingleton.storedRows t.store cr.path ++ (cr.pending ++ [r]))) cr.path
    rw [storedRows_setStored_self]
    simp
  · -- the post-insert state
    have hoS : lookupObj
        (updateConn
          { (updateConn t c (fun _ => { cr with pending := cr.pending ++ [r] })) with
              store := SQLiteConnectionSingleton.setStored t.store cr.path
                (SQLiteConnectionSingleton.storedRows t.store cr.path ++ (cr.pending ++ [r])) }
          c (fun _ => { cr with pending := [] })) h = some o := ho
    have hscS : selfConn
        (updateConn
          { (updateConn t c (fun _ => { cr with pending := cr.pending ++ [r] })) with
              store := SQLiteConnectionSingleton.setStored t.store cr.path
                (SQLiteConnectionSingleton.storedRows t.store cr.path ++ (cr.pending ++ [r])) }
          c (fun _ => { cr with pending := [] })) h = some c := hsc
    have hmid : lookupConn
        { (updateConn t c (fun _ => { cr with pending := cr.pending ++ [r] })) with
            store := SQLiteConnectionSingleton.setStored t.store cr.path
              (SQLiteConnectionSingleton.storedRows t.store cr.path ++ (cr.pending ++ [r])) }
        c = some { cr with pending := cr.pending ++ [r] } :=
      lookupConn_updateConn_const t c cr { cr with pending := cr.pending ++ [r] } hcr hidcr
    have hcrS : lookupConn
        (updateConn
          { (updateConn t c (fun _ => { cr with pending := cr.pending ++ [r] })) with
              store := SQLiteConnectionSingleton.setStored t.store cr.path
                (SQLiteConnectionSingleton.storedRows t.store cr.path ++ (cr.pending ++ [r])) }
          c (fun _ => { cr with pending := [] })) c = some { cr with pending := [] } :=
      lookupConn_updateConn_const _ c { cr with pending := cr.pending ++ [r] }
        { cr with pending := [] } hmid hidcr
    have hstS : (updateConn
        { (updateConn t c (fun _ => { cr with pending := cr.pending ++ [r] })) with
            store := SQLiteConnectionSingleton.setStored t.store cr.path
              (SQLiteConnectionSingleton.storedRows t.store cr.path ++ (cr.pending ++ [r])) }
        c (fun _ => { cr with pending := [] })).store.find?
          (fun x => x.1 = ({ cr with pending := ([] : List Row) } : ConnRes).path) =
        some (cr.path,
          SQLiteConnectionSingleton.storedRows t.store cr.path ++ (cr.pending ++ [r])) :=
      find?_setStored_self t.store cr.path _
    refine ⟨SQLiteConnectionSingleton.storedRows t.store cr.path ++ (cr.pending ++ [r]) ++ [], ?_, ?_⟩
    · exact execute_select_rows _ h c o { cr with pending := [] } _ hoS hscS hcrS hstS
    · simp

/-- C8: from a connected singleton, `execute` of an INSERT succeeds, commits,
and persists the row to the backing store before returning, and a subsequent
`execute` of a SELECT returns a cursor positioned over rows that include the
inserted row. -/
theorem c8_insert_select_roundtrip (s : PyState) (h : Nat) (o : Obj) (p : String) (r : Row)
    (ho : lookupObj s h = some o) (hp : o.dbPath = some p)
    (hsc : selfConn s h = none) :
    (SQLiteConnectionSingleton.execute h (Stmt.insertRow r)
      (SQLiteConnectionSingleton.connect h s).2).1 = Except.ok { rows := [] } ∧
    r ∈ SQLiteConnectionSingleton.storedRows
      (SQLiteConnectionSingleton.execute h (Stmt.insertRow r)
        (SQLiteConnectionSingleton.connect h s).2).2.store p ∧
    ∃ rows0,
      (SQLiteConnectionSingleton.execute h Stmt.selectAll
        (SQLiteConnectionSingleton.execute h (Stmt.insertRow r)
          (SQLiteConnectionSingleton.connect h s).2).2).1 =
        Except.ok { rows := rows0 } ∧ r ∈ rows0 := by
  rw [connect_of_selfConn_none s h o p ho hp hsc]
  have hoT : lookupObj
      (updateObj
        { s with conns := { id := s.nextConn, path := p, isOpen := true, pending := [] } :: s.conns,
                 nextConn := s.nextConn + 1 }
        h (fun x => { x with connAttr := some (some s.nextConn) }))
      h = some { o with connAttr := some (some s.nextConn) } := by
    rw [lookupObj_updateObj_self _ h
      (fun x => { x with connAttr := some (some s.nextConn) }) (fun _ => rfl)]
    have hbase : lookupObj
        { s with conns := { id := s.nextConn, path := p, isOpen := true, pending := [] } :: s.conns,
                 nextConn := s.nextConn + 1 } h = some o := ho
    rw [hbase]
    rfl
  have hscT : selfConn
      (updateObj
        { s with conns := { id := s.nextConn, path := p, isOpen := true, pending := [] } :: s.conns,
                 nextConn := s.nextConn + 1 }
        h (fun x => { x with connAttr := some (some s.nextConn) }))
      h = some s.nextConn :=
    selfConn_updateObj_attr _ h (some s.nextConn) o ho
  have hconnT : lookupConn
      (updateObj
        { s with conns := { id := s.nextConn, path := p, isOpen := true, pending := [] } :: s.conns,
                 nextConn := s.nextConn + 1 }
        h (fun x => { x with connAttr := some (some s.nextConn) }))
      s.nextConn = some { id := s.nextConn, path := p, isOpen := true, pending := [] } := by
    show lookupConn
      { s with conns := { id := s.nextConn, path := p, isOpen := true, pending := [] } :: s.conns,
               nextConn := s.nextConn + 1 } s.nextConn = _
    unfold lookupConn
    rw [List.find?_cons_of_pos _ (by simp)]
  exact execute_roundtrip_aux _ h s.nextConn { o with connAttr := some (some s.nextConn) }
    { id := s.nextConn, path := p, isOpen := true, pending := [] } r hoT hscT hconnT

/-- C8 witness: connect the fresh singleton bound to `"a"`, insert a row,
select it back. -/
theorem c8_insert_select_roundtrip_witness :
    (SQLiteConnectionSingleton.execute 0 (Stmt.insertRow ["x"])
      (SQLiteConnectionSingleton.connect 0 (stateAfterFirst "a")).2).1 =
        Except.ok { rows := [] } ∧
    (["x"] : Row) ∈ SQLiteConnectionSingleton.storedRows
      (SQLiteConnectionSingleton.execute 0 (Stmt.insertRow ["x"])
        (SQLiteConnectionSingleton.connect 0 (stateAfterFirst "a")).2).2.store "a" ∧
    ∃ rows0,
      (SQLiteConnectionSingleton.execute 0 Stmt.selectAll
        (SQLiteConnectionSingleton.execute 0 (Stmt.insertRow ["x"])
          (SQLiteConnectionSingleton.connect 0 (stateAfterFirst "a")).2).2).1 =
        Except.ok { rows := rows0 } ∧ (["x"] : Row) ∈ rows0 :=
  c8_insert_select_roundtrip (stateAfterFirst "a") 0
    { id := 0, dbPath := some "a", initFlag := true, connAttr := none } "a"
    ["x"] rfl rfl rfl

/-! ### Reset leaks the open connection: trace reasoning -/

theorem length_filter_map_eq_mem {α : Type} (l : List α) (g : α → α) (p : α → Bool)
    (hp : ∀ x ∈ l, p (g x) = p x) :
    ((l.map g).filter p).length = (l.filter p).length := by
  induction l with
  | nil => rfl
  | cons x xs ih =>
    have hx := hp x (List.mem_cons_self x xs)
    have hxs : ∀ y ∈ xs, p (g y) = p y := fun y hy => hp y (List.mem_cons_of_mem x hy)
    simp only [List.map_cons, List.filter_cons, hx]
    by_cases hpx : p x = true
    · rw [if_pos hpx, if_pos hpx]
      simp [ih hxs]
    · rw [if_neg hpx, if_neg hpx]
      exact ih hxs

theorem list_eq_singleton_of_len_le_one {α : Type} (l : List α) (hl : l.length ≤ 1)
    (a : α) (ha : a ∈ l) : l = [a] := by
  cases l with
  | nil => cases ha
  | cons x xs =>
    cases xs with
    | nil =>
      have : a = x := by simpa using ha
      rw [this]
    | cons y ys => simp at hl

theorem mem_id_eq_of_pairwise {l : List ConnRes}
    (hp : l.Pairwise (fun a b => a.id ≠ b.id)) {x y : ConnRes}
    (hx : x ∈ l) (hy : y ∈ l) (hxy : x.id = y.id) : x = y := by
  induction l with
  | nil => cases hx
  | cons a t ih =>
    rw [List.pairwise_cons] at hp
    rcases List.mem_cons.mp hx with hxa | hxt
    · rcases List.mem_cons.mp hy with hya | hyt
      · rw [hxa, hya]
      · exact absurd (hxa ▸ hxy) (hp.1 y hyt)
    · rcases List.mem_cons.mp hy with hya | hyt
      · exact absurd (hya ▸ hxy).symm (hp.1 x hxt)
      · exact ih hp.2 hxt hyt

theorem selfConn_attr_of_some (s : PyState) (h c : Nat) (o : Obj)
    (hl : lookupObj s h = some o) (hsc : selfConn s h = some c)
    (hcc : s.classConn = none) : o.connAttr = some (some c) := by
  have hsc2 : (match o.connAttr with
      | some v => v
      | none => s.classConn) = some c := by
    unfold selfConn at hsc
    rw [hl] at hsc
    exact hsc
  cases hattr : o.connAttr with
  | none =>
    rw [hattr, hcc] at hsc2
    cases hsc2
  | some v =>
    rw [hattr] at hsc2
    exact congrArg some hsc2

theorem openCount_eq_zero_of_selfConn_none (s : PyState) (h : Nat) (o : Obj)
    (hg : GoodState s) (hl : lookupObj s h = some o) (hsc : selfConn s h = none) :
    openCount s = 0 := by
  unfold openCount
  rw [List.length_eq_zero, List.filter_eq_nil_iff]
  intro cr hcr hopen
  obtain ⟨o2, ho2, hattr⟩ := hg.openPointed cr hcr (by simpa using hopen)
  have hmem : o ∈ s.heap := lookupObj_mem s h o hl
  have hsing : s.heap = [o] := list_eq_singleton_of_len_le_one s.heap hg.heapLen o hmem
  have ho2o : o2 = o := by
    rw [hsing] at ho2
    simpa using ho2
  have hsc2 : (match o.connAttr with
      | some v => v
      | none => s.classConn) = none := by
    unfold selfConn at hsc
    rw [hl] at hsc
    exact hsc
  have hoattr : o.connAttr = some (some cr.id) := ho2o ▸ hattr
  rw [hoattr] at hsc2
  cases hsc2

/-- C7 counterexample: the reachable trace `getInstance "a"; connect; reset;
getInstance "b"; connect` leaves two live (open) connection resources in the
process — `reset` discards the first connection without closing it. -/
theorem c7_counterexample :
    openCount (runOps initState
      [Op.getInstance "a", Op.connect 0, Op.reset, Op.getInstance "b", Op.connect 1]) = 2 := by
  decide

theorem goodState_initState : GoodState initState := by
  refine ⟨rfl, fun _ => rfl, ?_, ?_, ?_, ?_, ?_⟩ <;>
    simp [initState, openCount]

theorem goodState_updateObj (s : PyState) (i : Nat) (f : Obj → Obj)
    (hfattr : ∀ o, (f o).connAttr = o.connAttr)
    (hg : GoodState s) : GoodState (updateObj s i f) := by
  constructor
  · exact hg.classConnNone
  · intro hnone
    show s.heap.map _ = []
    rw [hg.heapEmptyOfNoInst hnone]
    rfl
  · show (s.heap.map _).length ≤ 1
    rw [List.length_map]
    exact hg.heapLen
  · exact hg.connIdsLt
  · exact hg.connIdsDistinct
  · exact hg.openLe
  · intro cr hcr hopen
    obtain ⟨o, ho, hattr⟩ := hg.openPointed cr hcr hopen
    refine ⟨(fun x => if x.id = i then f x else x) o, List.mem_map_of_mem _ ho, ?_⟩
    show (if o.id = i then f o else o).connAttr = some (some cr.id)
    by_cases hid : o.id = i
    · rw [if_pos hid, hfattr o]
      exact hattr
    · rw [if_neg hid]
      exact hattr

theorem getInstance_snd_cases (p : String) (s : PyState) :
    (SQLiteConnectionSingleton.getInstance p s).2 = s ∨
    (s.classInstance = none ∧
      (SQLiteConnectionSingleton.getInstance p s).2 =
        updateObj
          { s with heap := { id := s.nextObj, dbPath := none, initFlag := false, connAttr := none } :: s.heap,
                   nextObj := s.nextObj + 1, classInstance := some s.nextObj }
          s.nextObj (fun o => { o with dbPath := some p, initFlag := true })) ∨
    (∃ i o, s.classInstance = some i ∧ lookupObj s i = some o ∧
      (SQLiteConnectionSingleton.getInstance p s).2 =
        updateObj s i (fun x => { x with dbPath := some p, initFlag := true })) := by
  cases hci : s.classInstance with
  | none =>
    refine Or.inr (Or.inl ⟨rfl, ?_⟩)
    rw [getInstance_of_no_inst s p hci]
  | some i =>
    cases hl : lookupObj s i with
    | none =>
      refine Or.inl ?_
      unfold SQLiteConnectionSingleton.getInstance
      simp [hci, hl]
    | some o =>
      by_cases hf : o.initFlag = false
      · refine Or.inr (Or.inr ⟨i, o, rfl, hl, ?_⟩)
        unfold SQLiteConnectionSingleton.getInstance
        simp [hci, hl, hf]
      · refine Or.inl ?_
        unfold SQLiteConnectionSingleton.getInstance
        simp only [hci, hl]
        rw [if_neg hf]
        cases hp : o.dbPath with
        | none => rfl
        | some q =>
          show (if q = p then ((Except.ok i : Except PyError Nat), s)
            else (Except.error (PyError.configurationConflict q p), s)).2 = s
          by_cases hq : q = p
          · rw [if_pos hq]
          · rw [if_neg hq]

theorem goodState_getInstance (s : PyState) (p : String) (hg : GoodState s) :
    GoodState (SQLiteConnectionSingleton.getInstance p s).2 := by
  rcases getInstance_snd_cases p s with heq | ⟨hci, heq⟩ | ⟨i, o, hci, hl, heq⟩
  · rw [heq]; exact hg
  · rw [heq]
    have hheap : s.heap = [] := hg.heapEmptyOfNoInst hci
    have hbase : GoodState
        { s with heap := { id := s.nextObj, dbPath := none, initFlag := false, connAttr := none } :: s.heap,
                 nextObj := s.nextObj + 1, classInstance := some s.nextObj } := by
      constructor
      · exact hg.classConnNone
      · intro hnone
        cases hnone
      · show ({ id := s.nextObj, dbPath := none, initFlag := false, connAttr := none } :: s.heap).length ≤ 1
        rw [hheap]
        exact Nat.le_refl 1
      · exact hg.connIdsLt
      · exact hg.connIdsDistinct
      · exact hg.openLe
      · intro cr hcr hopen
        obtain ⟨o2, ho2, _⟩ := hg.openPointed cr hcr hopen
        rw [hheap] at ho2
        cases ho2
    exact goodState_updateObj _ s.nextObj _ (fun _ => rfl) hbase
  · rw [heq]
    exact goodState_updateObj s i _ (fun _ => rfl) hg

theorem connect_snd_of_dbPath_none (s : PyState) (h : Nat) (o : Obj)
    (ho : lookupObj s h = some o) (hsc : selfConn s h = none)
    (hp : o.dbPath = none) :
    SQLiteConnectionSingleton.connect h s = (Except.error PyError.attributeError, s) := by
  unfold SQLiteConnectionSingleton.connect
  simp [ho, hsc, hp]

theorem connect_snd_of_no_obj (s : PyState) (h : Nat) (ho : lookupObj s h = none) :
    SQLiteConnectionSingleton.connect h s = (Except.error PyError.invalidHandle, s) := by
  unfold SQLiteConnectionSingleton.connect
  simp [ho]

theorem goodState_connect (s : PyState) (h : Nat) (hg : GoodState s) :
    GoodState (SQLiteConnectionSingleton.connect h s).2 := by
  cases hl : lookupObj s h with
  | none =>
    rw [connect_snd_of_no_obj s h hl]
    exact hg
  | some o =>
    cases hsc : selfConn s h with
    | some c =>
      rw [connect_of_selfConn_some s h c o hl hsc]
      exact hg
    | none =>
      cases hp : o.dbPath with
      | none =>
        rw [connect_snd_of_dbPath_none s h o hl hsc hp]
        exact hg
      | some p =>
        rw [connect_of_selfConn_none s h o p hl hp hsc]
        have hzero : openCount s = 0 := openCount_eq_zero_of_selfConn_none s h o hg hl hsc
        have hmem : o ∈ s.heap := lookupObj_mem s h o hl
        have hoid : o.id = h := lookupObj_id s h o hl
        have hclosed : ∀ cr ∈ s.conns, cr.isOpen = false := by
          intro cr hcr
          by_contra hneq
          have hopen : cr.isOpen = true := by
            cases hval : cr.isOpen
            · exact absurd hval hneq
            · rfl
          have : (s.conns.filter (fun x => x.isOpen)).length = 0 := hzero
          rw [List.length_eq_zero, List.filter_eq_nil_iff] at this
          exact absurd (by simpa using hopen) (this cr hcr)
        constructor
        · exact hg.classConnNone
        · intro hnone
          have hempty : s.heap = [] := hg.heapEmptyOfNoInst hnone
          rw [hempty] at hmem
          cases hmem
        · show (s.heap.map _).length ≤ 1
          rw [List.length_map]
          exact hg.heapLen
        · intro cr hcr
          show cr.id < s.nextConn + 1
          rcases List.mem_cons.mp hcr with hh | ht
          · rw [hh]
            exact Nat.lt_succ_self _
          · exact Nat.lt_succ_of_lt (hg.connIdsLt cr ht)
        · show ({ id := s.nextConn, path := p, isOpen := true, pending := [] } :: s.conns).Pairwise _
          rw [List.pairwise_cons]
          refine ⟨?_, hg.connIdsDistinct⟩
          intro y hy
          have : y.id < s.nextConn := hg.connIdsLt y hy
          show s.nextConn ≠ y.id
          omega
        · show (({ id := s.nextConn, path := p, isOpen := true, pending := [] } :: s.conns).filter
            (fun cr => cr.isOpen)).length ≤ 1
          rw [List.filter_cons]
          simp only [if_pos rfl]
          have : (s.conns.filter (fun x => x.isOpen)).length = 0 := hzero
          simp [this]
        · intro cr hcr hopen
          rcases List.mem_cons.mp hcr with hh | ht
          · refine ⟨(fun x => if x.id = h then { x with connAttr := some (some s.nextConn) } else x) o,
              List.mem_map_of_mem _ hmem, ?_⟩
            show (if o.id = h then ({ o with connAttr := some (some s.nextConn) } : Obj) else o).connAttr =
              some (some cr.id)
            rw [if_pos hoid]
            rw [hh]
          · have := hclosed cr ht
            rw [this] at hopen
            cases hopen

theorem close_snd_of_no_obj (s : PyState) (h : Nat) (ho : lookupObj s h = none) :
    SQLiteConnectionSingleton.close h s = (Except.error PyError.invalidHandle, s) := by
  unfold SQLiteConnectionSingleton.close
  simp [ho]

theorem goodState_updateConn_close (s : PyState) (c : Nat) (hg : GoodState s) :
    GoodState (updateConn s c (fun cr => { cr with isOpen := false })) := by
  constructor
  · exact hg.classConnNone
  · exact hg.heapEmptyOfNoInst
  · exact hg.heapLen
  · intro cr hcr
    obtain ⟨x, hx, heq⟩ := List.mem_map.mp hcr
    have hid : cr.id = x.id := by
      rw [← heq]
      by_cases hxc : x.id = c <;> simp [hxc]
    show cr.id < s.nextConn
    rw [hid]
    exact hg.connIdsLt x hx
  · show (s.conns.map _).Pairwise _
    rw [List.pairwise_map]
    refine hg.connIdsDistinct.imp ?_
    intro a b hab
    have ha : (if a.id = c then ({ a with isOpen := false } : ConnRes) else a).id = a.id := by
      by_cases h1 : a.id = c <;> simp [h1]
    have hb : (if b.id = c then ({ b with isOpen := false } : ConnRes) else b).id = b.id := by
      by_cases h1 : b.id = c <;> simp [h1]
    show (if a.id = c then ({ a with isOpen := false } : ConnRes) else a).id ≠
      (if b.id = c then ({ b with isOpen := false } : ConnRes) else b).id
    rw [ha, hb]
    exact hab
  · show ((s.conns.map (fun cr => if cr.id = c then { cr with isOpen := false } else cr)).filter
      (fun cr => cr.isOpen)).length ≤ 1
    refine Nat.le_trans (length_filter_map_le s.conns _ _ ?_) hg.openLe
    intro x hx
    by_cases hxc : x.id = c
    · simp [hxc] at hx
    · simpa [hxc] using hx
  · intro cr hcr hopen
    obtain ⟨x, hx, heq⟩ := List.mem_map.mp hcr
    have hxne : ¬x.id = c := by
      intro hxc
      rw [← heq] at hopen
      simp [hxc] at hopen
    have hgx : cr = x := by rw [← heq]; simp [hxne]
    obtain ⟨o2, ho2, hattr2⟩ := hg.openPointed x hx (hgx ▸ hopen)
    exact ⟨o2, ho2, by rw [hgx]; exact hattr2⟩

theorem goodState_close (s : PyState) (h : Nat) (hg : GoodState s) :
    GoodState (SQLiteConnectionSingleton.close h s).2 := by
  cases hl : lookupObj s h with
  | none =>
    rw [close_snd_of_no_obj s h hl]
    exact hg
  | some o =>
    cases hsc : selfConn s h with
    | none =>
      rw [close_of_selfConn_none s h o hl hsc]
      exact hg
    | some c =>
      rw [close_of_selfConn_some s h c o hl hsc]
      have hattr_o : o.connAttr = some (some c) :=
        selfConn_attr_of_some s h c o hl hsc hg.classConnNone
      have hmem : o ∈ s.heap := lookupObj_mem s h o hl
      have hgS1 : GoodState (updateConn s c (fun cr => { cr with isOpen := false })) :=
        goodState_updateConn_close s c hg
      constructor
      · exact hgS1.classConnNone
      · intro hnone
        show (updateConn s c (fun cr => { cr with isOpen := false })).heap.map _ = []
        rw [hgS1.heapEmptyOfNoInst hnone]
        rfl
      · show ((updateConn s c (fun cr => { cr with isOpen := false })).heap.map _).length ≤ 1
        rw [List.length_map]
        exact hgS1.heapLen
      · exact hgS1.connIdsLt
      · exact hgS1.connIdsDistinct
      · exact hgS1.openLe
      · intro cr hcr hopen
        obtain ⟨o2, ho2, hattr2⟩ := hgS1.openPointed cr hcr hopen
        have ho2s : o2 ∈ s.heap := ho2
        by_cases hid2 : o2.id = h
        · exfalso
          have hsing : s.heap = [o] := list_eq_singleton_of_len_le_one s.heap hg.heapLen o hmem
          have ho2o : o2 = o := by
            rw [hsing] at ho2s
            simpa using ho2s
          have hcrc : cr.id = c := by
            have h2 := hattr2
            rw [ho2o, hattr_o] at h2
            simp only [Option.some.injEq] at h2
            exact h2.symm
          obtain ⟨x, hx, heq⟩ := List.mem_map.mp hcr
          by_cases hxc : x.id = c
          · rw [← heq] at hopen
            simp [hxc] at hopen
          · have : cr = x := by rw [← heq]; simp [hxc]
            rw [this] at hcrc
            exact hxc hcrc
        · refine ⟨(fun x => if x.id = h then { x with connAttr := some none } else x) o2,
            List.mem_map_of_mem _ ho2, ?_⟩
          show (if o2.id = h then ({ o2 with connAttr := some none } : Obj) else o2).connAttr =
            some (some cr.id)
          rw [if_neg hid2]
          exact hattr2

theorem goodState_setStore (s : PyState) (st2 : List (String × List Row))
    (hg : GoodState s) : GoodState { s with store := st2 } := by
  constructor
  · exact hg.classConnNone
  · exact hg.heapEmptyOfNoInst
  · exact hg.heapLen
  · exact hg.connIdsLt
  · exact hg.connIdsDistinct
  · exact hg.openLe
  · exact hg.openPointed

theorem goodState_updateConn_const (s : PyState) (c : Nat) (cr K : ConnRes)
    (hg : GoodState s) (hcr : lookupConn s c = some cr)
    (hKid : K.id = c) (hKopen : K.isOpen = cr.isOpen) :
    GoodState (updateConn s c (fun _ => K)) := by
  have hcr_mem : cr ∈ s.conns := List.mem_of_find?_eq_some hcr
  have hcrid : cr.id = c := lookupConn_id s c cr hcr
  have hxeq : ∀ x ∈ s.conns, x.id = c → x = cr := fun x hx hxc =>
    mem_id_eq_of_pairwise hg.connIdsDistinct hx hcr_mem (by rw [hxc, hcrid])
  have hidpres : ∀ x : ConnRes, (if x.id = c then K else x).id = x.id := by
    intro x
    by_cases hxc : x.id = c
    · rw [if_pos hxc, hKid, hxc]
    · rw [if_neg hxc]
  have hopenpres : ∀ x ∈ s.conns, (if x.id = c then K else x).isOpen = x.isOpen := by
    intro x hx
    by_cases hxc : x.id = c
    · rw [if_pos hxc, hKopen, hxeq x hx hxc]
    · rw [if_neg hxc]
  constructor
  · exact hg.classConnNone
  · exact hg.heapEmptyOfNoInst
  · exact hg.heapLen
  · intro cr2 hcr2
    obtain ⟨x, hx, heq⟩ := List.mem_map.mp hcr2
    show cr2.id < s.nextConn
    rw [← heq, hidpres x]
    exact hg.connIdsLt x hx
  · show (s.conns.map (fun x => if x.id = c then K else x)).Pairwise _
    rw [List.pairwise_map]
    refine hg.connIdsDistinct.imp ?_
    intro a b hab
    show (if a.id = c then K else a).id ≠ (if b.id = c then K else b).id
    rw [hidpres a, hidpres b]
    exact hab
  · show ((s.conns.map (fun x => if x.id = c then K else x)).filter
      (fun x => x.isOpen)).length ≤ 1
    rw [length_filter_map_eq_mem s.conns _ _ (fun x hx => hopenpres x hx)]
    exact hg.openLe
  · intro cr2 hcr2 hopen
    obtain ⟨x, hx, heq⟩ := List.mem_map.mp hcr2
    have hxopen : x.isOpen = true := by
      rw [← hopenpres x hx, heq]
      exact hopen
    obtain ⟨o2, ho2, hattr2⟩ := hg.openPointed x hx hxopen
    refine ⟨o2, ho2, ?_⟩
    rw [← heq, hidpres x]
    exact hattr2

theorem execute_snd_of_no_obj (s : PyState) (h : Nat) (stmt : Stmt)
    (ho : lookupObj s h = none) :
    SQLiteConnectionSingleton.execute h stmt s = (Except.error PyError.invalidHandle, s) := by
  unfold SQLiteConnectionSingleton.execute
  simp [ho]

theorem execute_snd_of_selfConn_none (s : PyState) (h : Nat) (o : Obj) (stmt : Stmt)
    (ho : lookupObj s h = some o) (hsc : selfConn s h = none) :
    SQLiteConnectionSingleton.execute h stmt s = (Except.error PyError.notConnected, s) := by
  unfold SQLiteConnectionSingleton.execute
  simp [ho, hsc]

theorem execute_snd_of_no_conn (s : PyState) (h c : Nat) (o : Obj) (stmt : Stmt)
    (ho : lookupObj s h = some o) (hsc : selfConn s h = some c)
    (hcr : lookupConn s c = none) :
    SQLiteConnectionSingleton.execute h stmt s = (Except.error PyError.invalidHandle, s) := by
  unfold SQLiteConnectionSingleton.execute
  simp [ho, hsc, hcr]

theorem engineExec_snd_id (s : PyState) (cr : ConnRes) (stmt : Stmt) :
    (SQLiteConnectionSingleton.engineExec s cr stmt).2.id = cr.id := by
  unfold SQLiteConnectionSingleton.engineExec
  cases stmt with
  | insertRow r => rfl
  | selectAll =>
    cases hf : s.store.find? (fun e => e.1 = cr.path) <;> simp [hf]

theorem engineExec_snd_isOpen (s : PyState) (cr : ConnRes) (stmt : Stmt) :
    (SQLiteConnectionSingleton.engineExec s cr stmt).2.isOpen = cr.isOpen := by
  unfold SQLiteConnectionSingleton.engineExec
  cases stmt with
  | insertRow r => rfl
  | selectAll =>
    cases hf : s.store.find? (fun e => e.1 = cr.path) <;> simp [hf]

theorem execute_snd_eq (s : PyState) (h c : Nat) (o : Obj) (cr : ConnRes) (stmt : Stmt)
    (ho : lookupObj s h = some o) (hsc : selfConn s h = some c)
    (hcr : lookupConn s c = some cr) :
    (SQLiteConnectionSingleton.execute h stmt s).2 =
      updateConn
        { (updateConn s c (fun _ => (SQLiteConnectionSingleton.engineExec s cr stmt).2)) with
            store := SQLiteConnectionSingleton.setStored s.store
              (SQLiteConnectionSingleton.engineExec s cr stmt).2.path
              (SQLiteConnectionSingleton.storedRows s.store
                (SQLiteConnectionSingleton.engineExec s cr stmt).2.path ++
                (SQLiteConnectionSingleton.engineExec s cr stmt).2.pending) }
        c (fun _ => { (SQLiteConnectionSingleton.engineExec s cr stmt).2 with pending := [] }) := by
  unfold SQLiteConnectionSingleton.execute SQLiteConnectionSingleton.engineCommit
  simp [ho, hsc, hcr]

theorem goodState_execute (s : PyState) (h : Nat) (stmt : Stmt) (hg : GoodState s) :
    GoodState (SQLiteConnectionSingleton.execute h stmt s).2 := by
  cases hl : lookupObj s h with
  | none =>
    rw [execute_snd_of_no_obj s h stmt hl]
    exact hg
  | some o =>
    cases hsc : selfConn s h with
    | none =>
      rw [execute_snd_of_selfConn_none s h o stmt hl hsc]
      exact hg
    | some c =>
      cases hcr : lookupConn s c with
      | none =>
        rw [execute_snd_of_no_conn s h c o stmt hl hsc hcr]
        exact hg
      | some cr =>
        rw [execute_snd_eq s h c o cr stmt hl hsc hcr]
        have hEid : (SQLiteConnectionSingleton.engineExec s cr stmt).2.id = c := by
          rw [engineExec_snd_id s cr stmt]
          exact lookupConn_id s c cr hcr
        have hEopen : (SQLiteConnectionSingleton.engineExec s cr stmt).2.isOpen = cr.isOpen :=
          engineExec_snd_isOpen s cr stmt
        have hg1 : GoodState
            (updateConn s c (fun _ => (SQLiteConnectionSingleton.engineExec s cr stmt).2)) :=
          goodState_updateConn_const s c cr _ hg hcr hEid hEopen
        have hcr1 : lookupConn
            (updateConn s c (fun _ => (SQLiteConnectionSingleton.engineExec s cr stmt).2)) c =
            some (SQLiteConnectionSingleton.engineExec s cr stmt).2 :=
          lookupConn_updateConn_const s c cr _ hcr hEid
        have hg2 : GoodState
            { (updateConn s c (fun _ => (SQLiteConnectionSingleton.engineExec s cr stmt).2)) with
                store := SQLiteConnectionSingleton.setStored s.store
                  (SQLiteConnectionSingleton.engineExec s cr stmt).2.path
                  (SQLiteConnectionSingleton.storedRows s.store
                    (SQLiteConnectionSingleton.engineExec s cr stmt).2.path ++
                    (SQLiteConnectionSingleton.engineExec s cr stmt).2.pending) } :=
          goodState_setStore _ _ hg1
        exact goodState_updateConn_const _ c
          (SQLiteConnectionSingleton.engineExec s cr stmt).2 _ hg2 hcr1 hEid rfl

theorem goodState_applyOp (s : PyState) (op : Op) (hg : GoodState s)
    (hop : op ≠ Op.reset) : GoodState (applyOp s op) := by
  cases op with
  | getInstance p => exact goodState_getInstance s p hg
  | connect h => exact goodState_connect s h hg
  | execute h stmt => exact goodState_execute s h stmt hg
  | close h => exact goodState_close s h hg
  | reset => exact absurd rfl hop

theorem goodState_runOps (ops : List Op) (s : PyState) (hg : GoodState s)
    (hn : noResets ops = true) : GoodState (runOps s ops) := by
  induction ops generalizing s with
  | nil => exact hg
  | cons op rest ih =>
    unfold noResets at hn
    rw [List.all_cons, Bool.and_eq_true] at hn
    have hop : op ≠ Op.reset := by
      have := hn.1
      simpa using this
    exact ih (applyOp s op) (goodState_applyOp s op hg hop) hn.2

/-- C7 (amended): along any trace of `getInstance`, `connect`, `execute`,
`close` that contains no `reset`, at most one live connection resource
exists at any time; `reset` breaks the invariant by discarding a live
connection without closing it (see the counterexample). -/
theorem c7_no_reset_at_most_one_open (ops : List Op) (hn : noResets ops = true) :
    openCount (runOps initState ops) ≤ 1 :=
  (goodState_runOps ops initState goodState_initState hn).openLe

/-- C7 witness: a reset-free trace that opens, closes, and reopens. -/
theorem c7_no_reset_at_most_one_open_witness :
    noResets [Op.getInstance "a", Op.connect 0, Op.execute 0 Stmt.selectAll,
      Op.close 0, Op.connect 0] = true ∧
    openCount (runOps initState [Op.getInstance "a", Op.connect 0,
      Op.execute 0 Stmt.selectAll, Op.close 0, Op.connect 0]) ≤ 1 :=
  ⟨by decide, c7_no_reset_at_most_one_open _ (by decide)⟩

/-- C10 counterexample: after `reset` and rebinding (`getInstance "b"`;
`connect`), calling `close()` on the pre-reset handle (object 0) does not
clear the new singleton's live connection: the new singleton (object 1) still
has its connection attached and open, and its `execute` succeeds instead of
failing not-connected — the connection reference is stored per object, not
process-wide. -/
theorem c10_counterexample :
    (SQLiteConnectionSingleton.execute 1 Stmt.selectAll
      (SQLiteConnectionSingleton.close 0 (runOps initState
        [Op.getInstance "a", Op.connect 0, Op.reset, Op.getInstance "b", Op.connect 1])).2).1 =
      Except.ok { rows := [] } ∧
    selfConn (SQLiteConnectionSingleton.close 0 (runOps initState
        [Op.getInstance "a", Op.connect 0, Op.reset, Op.getInstance "b", Op.connect 1])).2 1 =
      some 1 ∧
    lookupConn (SQLiteConnectionSingleton.close 0 (runOps initState
        [Op.getInstance "a", Op.connect 0, Op.reset, Op.getInstance "b", Op.connect 1])).2 1 =
      some { id := 1, path := "b", isOpen := true, pending := [] } :=
  ⟨rfl, rfl, rfl⟩

/-- C10 (amended): the connection reference lives in a per-object instance
attribute (the `self._conn = ...` writes shadow the class variable), so
`close()` invoked on one handle only affects that handle's own connection:
any other handle whose attached connection is a different resource keeps it,
and its `execute` does not raise not-connected. -/
theorem c10_close_is_per_handle (s : PyState) (h0 h2 c2 : Nat) (o2 : Obj) (cr2 : ConnRes)
    (ho2 : lookupObj s h2 = some o2)
    (hsc2 : selfConn s h2 = some c2)
    (hne : h2 ≠ h0)
    (hsc0 : selfConn s h0 ≠ some c2)
    (hcr2 : lookupConn s c2 = some cr2) :
    selfConn (SQLiteConnectionSingleton.close h0 s).2 h2 = some c2 ∧
    lookupConn (SQLiteConnectionSingleton.close h0 s).2 c2 = some cr2 ∧
    (∀ stmt, (SQLiteConnectionSingleton.execute h2 stmt
      (SQLiteConnectionSingleton.close h0 s).2).1 ≠ Except.error PyError.notConnected) := by
  have hnotNC : ∀ (t : PyState) (ot : Obj), lookupObj t h2 = some ot →
      selfConn t h2 = some c2 →
      ∀ stmt, (SQLiteConnectionSingleton.execute h2 stmt t).1 ≠
        Except.error PyError.notConnected := by
    intro t ot hot hsct stmt heq
    rw [execute_fst_notConnected_iff t h2 ot stmt hot] at heq
    rw [heq] at hsct
    exact Option.noConfusion hsct
  cases hl0 : lookupObj s h0 with
  | none =>
    rw [close_snd_of_no_obj s h0 hl0]
    exact ⟨hsc2, hcr2, hnotNC s o2 ho2 hsc2⟩
  | some o0 =>
    cases hs0 : selfConn s h0 with
    | none =>
      rw [close_of_selfConn_none s h0 o0 hl0 hs0]
      exact ⟨hsc2, hcr2, hnotNC s o2 ho2 hsc2⟩
    | some c =>
      have hcc2 : c ≠ c2 := by
        intro hc
        rw [hc] at hs0
        exact hsc0 hs0
      rw [close_of_selfConn_some s h0 c o0 hl0 hs0]
      have hsc2P : selfConn
          (updateObj (updateConn s c (fun cr => { cr with isOpen := false }))
            h0 (fun x => { x with connAttr := some none })) h2 = some c2 := by
        rw [selfConn_updateObj_attr_other _ h0 h2 none hne]
        rw [selfConn_updateConn s c _ h2]
        exact hsc2
      have hcrP : lookupConn
          (updateObj (updateConn s c (fun cr => { cr with isOpen := false }))
            h0 (fun x => { x with connAttr := some none })) c2 = some cr2 := by
        show lookupConn (updateConn s c (fun cr => { cr with isOpen := false })) c2 = some cr2
        rw [lookupConn_updateConn_other s c c2
          (fun cr => { cr with isOpen := false }) (fun _ => rfl) (fun h => hcc2 h.symm)]
        exact hcr2
      have hloP : lookupObj
          (updateObj (updateConn s c (fun cr => { cr with isOpen := false }))
            h0 (fun x => { x with connAttr := some none })) h2 = some o2 := by
        rw [lookupObj_updateObj_other _ h0 h2
          (fun x => { x with connAttr := some none }) (fun _ => rfl) hne]
        exact ho2
      exact ⟨hsc2P, hcrP, hnotNC _ o2 hloP hsc2P⟩

/-- C10 amended witness: in the post-reset state of the counterexample trace,
closing the old handle (object 0) leaves the new singleton (object 1)
connected. -/
theorem c10_close_is_per_handle_witness :
    selfConn (SQLiteConnectionSingleton.close 0 (runOps initState
      [Op.getInstance "a", Op.connect 0, Op.reset, Op.getInstance "b", Op.connect 1])).2 1 =
      some 1 ∧
    lookupConn (SQLiteConnectionSingleton.close 0 (runOps initState
      [Op.getInstance "a", Op.connect 0, Op.reset, Op.getInstance "b", Op.connect 1])).2 1 =
      some { id := 1, path := "b", isOpen := true, pending := [] } ∧
    (∀ stmt, (SQLiteConnectionSingleton.execute 1 stmt
      (SQLiteConnectionSingleton.close 0 (runOps initState
        [Op.getInstance "a", Op.connect 0, Op.reset, Op.getInstance "b", Op.connect 1])).2).1 ≠
      Except.error PyError.notConnected) :=
  c10_close_is_per_handle
    (runOps initState [Op.getInstance "a", Op.connect 0, Op.reset, Op.getInstance "b", Op.connect 1])
    0 1 1
    { id := 1, dbPath := some "b", initFlag := true, connAttr := some (some 1) }
    { id := 1, path := "b", isOpen := true, pending := [] }
    rfl rfl (by decide) (by decide) rfl
